import Mathlib

/-!
Shallow embedding of `src/thread/thread.cpp` (namespace `sylar`): a thin
wrapper over a POSIX thread.  The mutable data of one `Thread` handle,
together with the thread-local slots of its spawned thread, is modelled as an
explicit state record; the trampoline `Thread::run` is modelled as a list of
atomic events interpreted by a step function, so that the constructor's
semaphore handshake can be analysed over all interleavings of the creating
thread's `wait` with the spawned thread's steps.  Platform calls
(`pthread_create`, `pthread_join`, `syscall(SYS_gettid)`) are parameterised
by their return values.  C++ exceptions are modelled as an `Option String`
error slot carrying the `what()` message of the thrown `std::logic_error`;
`std::cerr` output is modelled as a log string.
-/

namespace Sylar

/-- State of one `Thread` handle plus the thread-local slots of its spawned
thread.  Fields mirror `thread.cpp`: `m_cb` records whether the handle's
stored `std::function` still holds the callable (it is swapped out by
`run`), `m_id` is the `pid_t` of the spawned thread (0 before `run` stores
it), `m_thread` is the raw `pthread_t` value (0 once cleared), `sem` is the
count of the handle's `m_semaphore`, `t_thread` records whether the spawned
thread's thread-local back-reference points at this handle, and
`t_thread_name` is that thread's thread-local name (initially "UNKNOWN").
`os_name` is the OS-level thread name set via `pthread_setname_np` (`none`
before it is set), `local_cb` is the trampoline's local `cb` variable, and
`invocations` counts how many times the work callable has been invoked. -/
structure ThreadState where
  m_cb : Bool
  m_name : String
  m_id : Nat
  m_thread : Nat
  sem : Nat
  t_thread : Bool
  t_thread_name : String
  os_name : Option String
  local_cb : Bool
  invocations : Nat
  deriving Repr, DecidableEq

/-- The handle state right after a successful `pthread_create` in the
constructor (lines 53-57): `m_cb` and `m_name` are initialised from the
arguments, `m_thread` holds the value `hv` the platform wrote, the id is
still unset, the semaphore count is 0, and the spawned thread's
thread-locals still hold their static initialisers. -/
def initState (name : String) (hv : Nat) : ThreadState :=
  { m_cb := true
    m_name := name
    m_id := 0
    m_thread := hv
    sem := 0
    t_thread := false
    t_thread_name := "UNKNOWN"
    os_name := none
    local_cb := false
    invocations := 0 }

/-- Atomic events of the two threads during construction.  The first seven
are the statements of `Thread::run` (lines 91-109, in source order); `wait`
is the creating thread's `m_semaphore.wait()` (line 64). -/
inductive Event where
  | setBackRef
  | setTLSName
  | storeId
  | setOSName
  | swapCb
  | signal
  | invokeCb
  | wait
  deriving Repr, DecidableEq

/-- Effect of one atomic event on the state.  `tid` is the value the
`syscall(SYS_gettid)` in `GetThreadId` returns on the spawned thread.
`setOSName` truncates to 15 characters (`m_name.substr(0, 15)`, line 99);
`swapCb` is the `cb.swap(thread->m_cb)` of line 103, which moves the
callable into the local `cb` and leaves `m_cb` empty. -/
def stepRun (tid : Nat) (e : Event) (s : ThreadState) : ThreadState :=
  match e with
  | Event.setBackRef => { s with t_thread := true }
  | Event.setTLSName => { s with t_thread_name := s.m_name }
  | Event.storeId => { s with m_id := tid }
  | Event.setOSName => { s with os_name := some (s.m_name.take 15) }
  | Event.swapCb => { s with local_cb := s.m_cb, m_cb := false }
  | Event.signal => { s with sem := s.sem + 1 }
  | Event.invokeCb => { s with invocations := s.invocations + 1 }
  | Event.wait => { s with sem := s.sem - 1 }

/-- The statements of the trampoline `Thread::run` in source order
(lines 95, 96, 97, 99, 103, 106, 108). -/
def runSteps : List Event :=
  [Event.setBackRef, Event.setTLSName, Event.storeId, Event.setOSName,
   Event.swapCb, Event.signal, Event.invokeCb]

/-- The events the creating thread performs after a successful
`pthread_create`: only the semaphore wait of line 64.  The constructor never
invokes the callable itself. -/
def creatorSteps : List Event := [Event.wait]

/-- Interpret a schedule (a list of events, some interleaving of the two
threads' steps).  A `wait` can only fire when the semaphore count is
positive; a schedule that reaches `wait` with count 0 is not a valid
complete schedule (the creator is still blocked there), modelled as `none`. -/
def execSched (tid : Nat) : List Event → ThreadState → Option ThreadState
  | [], s => some s
  | Event.wait :: rest, s =>
      if s.sem = 0 then none
      else execSched tid rest (stepRun tid Event.wait s)
  | e :: rest, s => execSched tid rest (stepRun tid e s)

/-- The state after the spawned thread has executed the first `k` statements
of `Thread::run`, with no interference (the creator is blocked in `wait`
throughout). -/
def runFirst (tid k : Nat) (name : String) (hv : Nat) : ThreadState :=
  (runSteps.take k).foldl (fun s e => stepRun tid e s) (initState name hv)

/-- `Thread::GetName` (lines 39-42): returns the thread-local name of the
calling thread. -/
def GetName (s : ThreadState) : String :=
  s.t_thread_name

/-- `Thread::SetName` (lines 44-51), executed by the thread whose
thread-local slots are in `s`: if the thread-local back-reference is set,
also update the handle's `m_name`; then set the thread-local name. -/
def SetName (name : String) (s : ThreadState) : ThreadState :=
  let s1 := if s.t_thread then { s with m_name := name } else s
  { s1 with t_thread_name := name }

/-- Outcome of running the constructor `Thread::Thread` (lines 53-65) up to
(and including, on success) the start of the semaphore wait.  `err` is the
`what()` message of a thrown exception (`none` on success), `log` what was
written to `std::cerr`, `waited` whether `m_semaphore.wait()` was reached,
`handle` the constructed handle state (`none` when the constructor threw, as
the object is then never constructed), and `threadSpawned` whether the
platform created a thread (false exactly when `pthread_create` failed).
`callerKeepsCb` records that the caller's own copy of the callable is
untouched: the constructor receives `std::function<void()> cb` by value, so
the caller's callable always remains with the caller. -/
structure CtorResult where
  err : Option String
  log : String
  waited : Bool
  handle : Option ThreadState
  threadSpawned : Bool
  callerKeepsCb : Bool
  deriving Repr, DecidableEq

/-- `Thread::Thread(cb, name)` with the platform's `pthread_create` return
value `rt` and, on success, the `pthread_t` value `hv` it writes into
`m_thread`.  On `rt ≠ 0` (line 58): write the diagnostic to `cerr` and
throw `std::logic_error("pthread_create error")` before ever reaching the
wait; no thread exists.  On `rt = 0`: the handle is initialised and the
constructor blocks in `m_semaphore.wait()`. -/
def construct (rt hv : Nat) (name : String) : CtorResult :=
  if rt ≠ 0 then
    { err := some "pthread_create error"
      log := "pthread_create thread fail, rt=" ++ toString rt ++ " name=" ++ name
      waited := false
      handle := none
      threadSpawned := false
      callerKeepsCb := true }
  else
    { err := none
      log := ""
      waited := true
      handle := some (initState name hv)
      threadSpawned := true
      callerKeepsCb := true }

/-- Outcome of `Thread::join` (lines 77-89): possibly thrown error message,
`cerr` output, resulting handle state, and whether `pthread_join` was
actually invoked on the stored handle. -/
structure JoinOutcome where
  err : Option String
  log : String
  state : ThreadState
  pthreadJoinCalled : Bool
  deriving Repr, DecidableEq

/-- `Thread::join` with `rt` the return value of the platform
`pthread_join` call (consulted only when the call happens).  If `m_thread`
is nonzero, `pthread_join` is called; on failure the diagnostic goes to
`cerr` and `std::logic_error("pthread_join error")` is thrown, leaving
`m_thread` untouched; on success `m_thread` is cleared.  If `m_thread` is
zero the whole body is skipped. -/
def join (rt : Nat) (s : ThreadState) : JoinOutcome :=
  if s.m_thread ≠ 0 then
    if rt ≠ 0 then
      { err := some "pthread_join error"
        log := "pthread_join failed, rt = " ++ toString rt ++ ", name = " ++ s.m_name
        state := s
        pthreadJoinCalled := true }
    else
      { err := none
        log := ""
        state := { s with m_thread := 0 }
        pthreadJoinCalled := true }
  else
    { err := none, log := "", state := s, pthreadJoinCalled := false }

/-- Outcome of the destructor `Thread::~Thread` (lines 67-75): whether
`pthread_detach` was invoked, and the resulting state. -/
structure DtorOutcome where
  detachCalled : Bool
  state : ThreadState
  deriving Repr, DecidableEq

/-- `Thread::~Thread`: if `m_thread` is nonzero, detach it and clear the
field; otherwise do nothing. -/
def destructor (s : ThreadState) : DtorOutcome :=
  if s.m_thread ≠ 0 then
    { detachCalled := true, state := { s with m_thread := 0 } }
  else
    { detachCalled := false, state := s }

/-- Run a sequence of `join` calls (each with the platform return value for
its `pthread_join`, consulted only if that call happens), returning the
final state and how many times `pthread_join` received the stored handle. -/
def joinSeq : List Nat → ThreadState → ThreadState × Nat
  | [], s => (s, 0)
  | rt :: rest, s =>
      let r := join rt s
      let p := joinSeq rest r.state
      (p.1, (if r.pthreadJoinCalled then 1 else 0) + p.2)

/-- Total number of platform calls (`pthread_join` or `pthread_detach`) that
receive the stored handle across a sequence of `join` calls followed by
destruction. -/
def lifecycleCalls (rts : List Nat) (s : ThreadState) : Nat :=
  let p := joinSeq rts s
  p.2 + (if (destructor p.1).detachCalled then 1 else 0)

/-- Claim C4 counterexample: the claim says the failure "carries the
platform error code", but the thrown `std::logic_error` has the fixed
message "pthread_create error" for every platform code: two failing
constructions with distinct codes 11 and 22 produce identical errors, so
the error cannot carry the code (only the `cerr` log mentions it). -/
theorem construct_error_code_not_carried :
    (construct 11 0 "w").err = (construct 22 0 "w").err ∧
    (construct 11 0 "w").err ≠ none ∧ (11 : Nat) ≠ 22 := by
  decide

/-- Claim C4 (amended): if `pthread_create` fails with code `rt ≠ 0`, the
constructor fails immediately by throwing an error with the fixed message
"pthread_create error" (the platform code appears only in the `cerr` log);
no thread exists, no handshake wait occurs, no handle is observable, and
the caller keeps its copy of the work callable. -/
theorem construct_failure_behaviour (rt hv : Nat) (name : String) (h : rt ≠ 0) :
    (construct rt hv name).err = some "pthread_create error" ∧
    (construct rt hv name).log =
      "pthread_create thread fail, rt=" ++ toString rt ++ " name=" ++ name ∧
    (construct rt hv name).waited = false ∧
    (construct rt hv name).handle = none ∧
    (construct rt hv name).threadSpawned = false ∧
    (construct rt hv name).callerKeepsCb = true := by
  simp [construct, h]

/-- Claim C4 witness: concrete failing construction with code 11. -/
theorem construct_failure_behaviour_witness :
    (construct 11 0 "w").err = some "pthread_create error" ∧
    (construct 11 0 "w").log =
      "pthread_create thread fail, rt=" ++ toString 11 ++ " name=" ++ "w" ∧
    (construct 11 0 "w").waited = false ∧
    (construct 11 0 "w").handle = none ∧
    (construct 11 0 "w").threadSpawned = false ∧
    (construct 11 0 "w").callerKeepsCb = true :=
  construct_failure_behaviour 11 0 "w" (by decide)

/-- Claim C5: calling `join` when no thread resource remains attached
(`m_thread = 0`) is a no-op success: no error, state untouched,
`pthread_join` not invoked — whatever the platform would have returned.
In particular a second `join` right after a successful one (whose state
always has `m_thread = 0`) is a no-op success. -/
theorem join_without_resource_noop_success (rt rt2 : Nat) (s t : ThreadState)
    (h : s.m_thread = 0) :
    (join rt s).err = none ∧ (join rt s).state = s ∧
    (join rt s).pthreadJoinCalled = false ∧
    (join 0 t).state.m_thread = 0 ∧
    (join rt2 (join 0 t).state).err = none ∧
    (join rt2 (join 0 t).state).state = (join 0 t).state ∧
    (join rt2 (join 0 t).state).pthreadJoinCalled = false := by
  by_cases ht : t.m_thread = 0 <;> simp [join, h, ht]

/-- Claim C5 witness: a handle whose `m_thread` is already 0, and a second
join after a successful first join on an attached handle. -/
theorem join_without_resource_noop_success_witness :
    (join 4 (initState "w" 0)).err = none ∧
    (join 4 (initState "w" 0)).state = initState "w" 0 ∧
    (join 4 (initState "w" 0)).pthreadJoinCalled = false ∧
    (join 0 (initState "w" 5)).state.m_thread = 0 ∧
    (join 6 (join 0 (initState "w" 5)).state).err = none ∧
    (join 6 (join 0 (initState "w" 5)).state).state = (join 0 (initState "w" 5)).state ∧
    (join 6 (join 0 (initState "w" 5)).state).pthreadJoinCalled = false :=
  join_without_resource_noop_success 4 6 (initState "w" 0) (initState "w" 5) rfl

/-- Claim C6 counterexample: the claim says a failing `join` throws an
error "carrying the platform error code", but the thrown
`std::logic_error` has the fixed message "pthread_join error" for every
code: failures with distinct codes 3 and 5 produce identical errors, so
the error cannot carry the code (only the `cerr` log mentions it). -/
theorem join_error_code_not_carried :
    (join 3 (initState "w" 5)).err = (join 5 (initState "w" 5)).err ∧
    (join 3 (initState "w" 5)).err ≠ none ∧ (3 : Nat) ≠ 5 := by
  decide

/-- Claim C6 (amended): if the platform `pthread_join` fails with code
`rt ≠ 0`, `join` fails by throwing an error with the fixed message
"pthread_join error" (the platform code appears only in the `cerr` log),
and the handle state — in particular `m_thread` — is left exactly as it
was, so the failure is observable and a retry with a succeeding platform
call clears the handle. -/
theorem join_failure_keeps_state (rt : Nat) (s : ThreadState)
    (hrt : rt ≠ 0) (hs : s.m_thread ≠ 0) :
    (join rt s).err = some "pthread_join error" ∧
    (join rt s).log =
      "pthread_join failed, rt = " ++ toString rt ++ ", name = " ++ s.m_name ∧
    (join rt s).state = s ∧
    (join 0 (join rt s).state).err = none ∧
    (join 0 (join rt s).state).state.m_thread = 0 := by
  simp [join, hrt, hs]

/-- Claim C6 witness: concrete failing join with code 3 on an attached
handle. -/
theorem join_failure_keeps_state_witness :
    (join 3 (initState "w" 5)).err = some "pthread_join error" ∧
    (join 3 (initState "w" 5)).log =
      "pthread_join failed, rt = " ++ toString 3 ++ ", name = " ++ (initState "w" 5).m_name ∧
    (join 3 (initState "w" 5)).state = initState "w" 5 ∧
    (join 0 (join 3 (initState "w" 5)).state).err = none ∧
    (join 0 (join 3 (initState "w" 5)).state).state.m_thread = 0 :=
  join_failure_keeps_state 3 (initState "w" 5) (by decide) (by decide)

/-- Claim C7: destruction detaches exactly when the thread resource is
still attached (`m_thread ≠ 0`) and always leaves `m_thread = 0`; since
`{s with m_thread := 0}` equals `s` when `m_thread` was already 0, the
already-joined case changes nothing.  After a successful `join` the
destructor performs no thread operation at all. -/
theorem dtor_detach_iff_attached (s t : ThreadState) :
    (destructor s).detachCalled = decide (s.m_thread ≠ 0) ∧
    (destructor s).state = { s with m_thread := 0 } ∧
    (destructor (join 0 t).state).detachCalled = false ∧
    (destructor (join 0 t).state).state = (join 0 t).state := by
  constructor
  · by_cases h : s.m_thread = 0 <;> simp [destructor, h]
  refine ⟨?_, ?_, ?_⟩
  · by_cases h : s.m_thread = 0
    · cases s
      simp_all [destructor]
    · simp [destructor, h]
  · by_cases ht : t.m_thread = 0 <;> simp [destructor, join, ht]
  · by_cases ht : t.m_thread = 0 <;> simp [destructor, join, ht]

/-- Claim C8: `SetName n` always installs `n` in the calling thread's
thread-local name slot (so `GetName` then returns `n`), and updates the
handle's stored `m_name` exactly when the calling thread's thread-local
back-reference is set (`GetThis()` non-null); otherwise `m_name` is left
unchanged. -/
theorem setname_updates_tls_and_handle (n : String) (s : ThreadState) :
    GetName (SetName n s) = n ∧
    (SetName n s).t_thread_name = n ∧
    (SetName n s).m_name = (if s.t_thread then n else s.m_name) := by
  by_cases h : s.t_thread <;> simp [GetName, SetName, h]

/-- Claim C9: the 15-character truncation applies only to the OS-level
thread name set via `pthread_setname_np`; after the full trampoline the
handle's `m_name` and the thread-local name both hold the untruncated
string. -/
theorem truncation_only_on_os_name (name : String) (tid hv : Nat) :
    (runFirst tid 7 name hv).os_name = some (name.take 15) ∧
    (runFirst tid 7 name hv).m_name = name ∧
    (runFirst tid 7 name hv).t_thread_name = name :=
  ⟨rfl, rfl, rfl⟩

/-- Unfolding of `lifecycleCalls` over the first join of a sequence. -/
theorem lifecycleCalls_cons (rt : Nat) (rts : List Nat) (s : ThreadState) :
    lifecycleCalls (rt :: rts) s =
      (if (join rt s).pthreadJoinCalled then 1 else 0) +
        lifecycleCalls rts (join rt s).state := by
  simp [lifecycleCalls, joinSeq]
  omega

/-- Once `m_thread` is 0, no later `join` (whatever the platform would
return) and no destructor passes the handle to a platform call. -/
theorem lifecycleCalls_cleared (rts : List Nat) (s : ThreadState)
    (h : s.m_thread = 0) : lifecycleCalls rts s = 0 := by
  induction rts generalizing s with
  | nil => simp [lifecycleCalls, joinSeq, destructor, h]
  | cons rt rest ih =>
      rw [lifecycleCalls_cons]
      have hc : (join rt s).pthreadJoinCalled = false := by simp [join, h]
      have hs : (join rt s).state = s := by simp [join, h]
      rw [hc, hs, ih s h]
      simp

/-- Claim C10 counterexample: the claim says that across any sequence of
`join()` calls and destruction the stored pthread handle is passed to
`pthread_join` or `pthread_detach` at most once in total.  But a `join`
whose platform call fails leaves `m_thread` set, so a failed join followed
by destruction passes the handle twice: once to `pthread_join` and once to
`pthread_detach`. -/
theorem handle_passed_twice_after_failed_join :
    lifecycleCalls [1] (initState "w" 5) = 2 ∧
    ¬ lifecycleCalls [1] (initState "w" 5) ≤ 1 := by
  decide

/-- Claim C10 (amended): `m_thread` is cleared exactly by a successful
release (successful `join` or the destructor's detach), and once cleared no
further platform call receives the handle; hence in any execution in which
every attempted `pthread_join` succeeds (`rt = 0`), the handle is passed to
a platform call at most once in total across all `join` calls and the
destruction.  Only a failed platform join permits a later retry or a detach
at destruction. -/
theorem at_most_one_release_when_joins_succeed (rts : List Nat)
    (s : ThreadState) (h : ∀ r ∈ rts, r = 0) :
    lifecycleCalls rts s ≤ 1 := by
  induction rts generalizing s with
  | nil =>
      by_cases hs : s.m_thread = 0 <;>
        simp [lifecycleCalls, joinSeq, destructor, hs]
  | cons rt rest ih =>
      have hrt : rt = 0 := h rt (List.mem_cons_self rt rest)
      subst hrt
      rw [lifecycleCalls_cons]
      by_cases hs : s.m_thread = 0
      · have hc : (join 0 s).pthreadJoinCalled = false := by simp [join, hs]
        have hst : (join 0 s).state = s := by simp [join, hs]
        rw [hc, hst]
        simpa using ih s (fun r hr => h r (List.mem_cons_of_mem _ hr))
      · have hc : (join 0 s).pthreadJoinCalled = true := by simp [join, hs]
        have hst : (join 0 s).state.m_thread = 0 := by simp [join, hs]
        rw [hc, lifecycleCalls_cleared rest _ hst]
        simp

/-- Claim C10 witness: two successful joins followed by destruction on an
attached handle release the resource exactly once. -/
theorem at_most_one_release_when_joins_succeed_witness :
    lifecycleCalls [0, 0] (initState "w" 5) ≤ 1 :=
  at_most_one_release_when_joins_succeed [0, 0] (initState "w" 5) (by decide)

/-- Claim C1: in every interleaving of the creator's semaphore `wait` with
the trampoline's statements (the creator is placed after the first `k`
trampoline statements, for any `k`), whenever the wait completes — i.e. the
constructor returns — the spawned thread has already stored its nonzero
`gettid` value into `m_id` and installed the construction name into its
thread-local name slot and back-reference; schedules in which the wait is
reached before the trampoline's `signal` are exactly the invalid ones
(`none`), which is the blocking the claim describes. -/
theorem ctor_return_sees_initialized_identity (name : String) (tid hv k : Nat)
    (htid : 0 < tid) (s' : ThreadState)
    (h : execSched tid (runSteps.take k ++ [Event.wait]) (initState name hv) = some s') :
    s'.m_id = tid ∧ s'.m_id ≠ 0 ∧ s'.t_thread_name = name ∧ s'.t_thread = true := by
  rcases Nat.lt_or_ge k 7 with hk | hk
  · interval_cases k <;>
      simp [runSteps, execSched, stepRun, initState] at h <;>
      (subst h; exact ⟨rfl, htid.ne', rfl, rfl⟩)
  · rw [List.take_of_length_le (by simp [runSteps]; omega)] at h
    simp [runSteps, execSched, stepRun, initState] at h
    subst h
    exact ⟨rfl, htid.ne', rfl, rfl⟩

/-- Claim C1 witness: the complete schedule in which the creator's wait
runs after all seven trampoline statements, with name "w", `gettid` 42 and
`pthread_t` value 5. -/
theorem ctor_return_sees_initialized_identity_witness :
    (⟨false, "w", 42, 5, 0, true, "w", some "w", true, 1⟩ : ThreadState).m_id = 42 ∧
    (⟨false, "w", 42, 5, 0, true, "w", some "w", true, 1⟩ : ThreadState).m_id ≠ 0 ∧
    (⟨false, "w", 42, 5, 0, true, "w", some "w", true, 1⟩ : ThreadState).t_thread_name = "w" ∧
    (⟨false, "w", 42, 5, 0, true, "w", some "w", true, 1⟩ : ThreadState).t_thread = true :=
  ctor_return_sees_initialized_identity "w" 42 5 7 (by decide)
    ⟨false, "w", 42, 5, 0, true, "w", some "w", true, 1⟩ (by decide)

/-- Claim C2: in every valid complete interleaving of the constructor's
wait with the trampoline (the full schedule, with the wait inserted after
the first `k` trampoline statements), the work callable has been invoked
exactly once when both threads are done, the invoking statement belongs to
the trampoline `runSteps`, and the creating thread's own statements
(`creatorSteps`) never invoke it. -/
theorem work_invoked_once_only_by_spawned (name : String) (tid hv k : Nat)
    (s' : ThreadState)
    (h : execSched tid (runSteps.take k ++ Event.wait :: runSteps.drop k)
      (initState name hv) = some s') :
    s'.invocations = 1 ∧ s'.m_cb = false ∧
    Event.invokeCb ∈ runSteps ∧ Event.invokeCb ∉ creatorSteps := by
  rcases Nat.lt_or_ge k 7 with hk | hk
  · interval_cases k <;>
      simp [runSteps, execSched, stepRun, initState] at h <;>
      (subst h; exact ⟨rfl, rfl, by decide, by decide⟩)
  · rw [List.take_of_length_le (by simp [runSteps]; omega),
      List.drop_of_length_le (by simp [runSteps]; omega)] at h
    simp [runSteps, execSched, stepRun, initState] at h
    subst h
    exact ⟨rfl, rfl, by decide, by decide⟩

/-- Claim C2 witness: the complete schedule in which the creator's wait
runs right after the trampoline's signal (k = 6). -/
theorem work_invoked_once_only_by_spawned_witness :
    (⟨false, "w", 42, 5, 0, true, "w", some "w", true, 1⟩ : ThreadState).invocations = 1 ∧
    (⟨false, "w", 42, 5, 0, true, "w", some "w", true, 1⟩ : ThreadState).m_cb = false ∧
    Event.invokeCb ∈ runSteps ∧ Event.invokeCb ∉ creatorSteps :=
  work_invoked_once_only_by_spawned "w" 42 5 6
    ⟨false, "w", 42, 5, 0, true, "w", some "w", true, 1⟩ (by decide)

/-- Claim C3: the trampoline's statements are, in source order, exactly:
install the thread-local back-reference, install the thread-local name,
store the platform id, set the OS-level (truncated) name, swap the work
callable out of the handle, signal the semaphore, invoke the callable.
Moreover after the first five statements (before the signal) every one of
those effects has happened, the handle's callable slot is empty, the
semaphore is still 0 and the work has not run; the sixth statement raises
the semaphore with the work still not run; only the seventh invokes the
work. -/
theorem trampoline_statement_order (name : String) (tid hv : Nat) :
    runSteps = [Event.setBackRef, Event.setTLSName, Event.storeId,
      Event.setOSName, Event.swapCb, Event.signal, Event.invokeCb] ∧
    (runFirst tid 5 name hv).t_thread = true ∧
    (runFirst tid 5 name hv).t_thread_name = name ∧
    (runFirst tid 5 name hv).m_id = tid ∧
    (runFirst tid 5 name hv).os_name = some (name.take 15) ∧
    (runFirst tid 5 name hv).m_cb = false ∧
    (runFirst tid 5 name hv).local_cb = true ∧
    (runFirst tid 5 name hv).sem = 0 ∧
    (runFirst tid 5 name hv).invocations = 0 ∧
    (runFirst tid 6 name hv).sem = 1 ∧
    (runFirst tid 6 name hv).invocations = 0 ∧
    (runFirst tid 7 name hv).invocations = 1 :=
  ⟨rfl, rfl, rfl, rfl, rfl, rfl, rfl, rfl, rfl, rfl, rfl, rfl⟩

end Sylar
